import Mathlib

/-!
Verification of the weather service in `src/main.go`.

The service exposes two HTTP operations on `/weather`:
* `getWeatherHandler` (GET, read path): looks a stored record up by city.
* `putWeatherHandler` (PUT, write path): fetches current weather from the
  external provider, transforms it and upserts it into the document store.

We model the document store as a list of `WeatherData` records, the
provider call and the body decoding as explicit oracles in `PutEnv`, and a
Go panic (which aborts the request) as `Option.none`.  Temperatures are
embedded as rationals; `time.Time` is an abstract tick (`Nat`).
-/

/-- `WeatherData` from main.go lines 19-24: the persisted/returned entity. -/
structure WeatherData where
  city : String
  description : String
  temp : ℚ
  lastUpdated : Nat
  deriving Repr, DecidableEq, Inhabited

/-- One entry of the provider's `weather` array (main.go lines 27-29). -/
structure WeatherCondition where
  description : String
  deriving Repr, DecidableEq

/-- The provider's `main` object (main.go lines 31-33). -/
structure WeatherMain where
  temp : ℚ
  deriving Repr, DecidableEq

/-- `weatherjson` from main.go lines 26-36: the decoded provider payload. -/
structure Weatherjson where
  weather : List WeatherCondition
  main : WeatherMain
  name : String
  deriving Repr, DecidableEq

/-- `FindOne(ctx, bson.M{"city": city})` (main.go line 98): the first stored
document whose `city` field equals the filter value. -/
def findOne (store : List WeatherData) (city : String) : Option WeatherData :=
  store.find? (fun r => r.city == city)

/-- `UpdateOne(ctx, filter, {$set: doc}, upsert: true)` (main.go lines 156-160):
replace the first document matching the `city` filter, or insert the new
document if none matches. -/
def updateOneUpsert : List WeatherData → String → WeatherData → List WeatherData
  | [], _, doc => [doc]
  | r :: rs, c, doc => if r.city == c then doc :: rs else r :: updateOneUpsert rs c doc

/-- Number of stored records for a given city value. -/
def countCity (store : List WeatherData) (c : String) : Nat :=
  (store.filter (fun r => r.city == c)).length

/-- Outcome of the store read performed by the GET handler: a matching
document, `mongo.ErrNoDocuments`, or a store-level read failure. -/
inductive StoreReadOutcome where
  | ok (doc : WeatherData)
  | noDocuments
  | failure
  deriving Repr, DecidableEq

/-- The read outcome produced by an actual (healthy) store: the `FindOne`
filter semantics of main.go line 98. -/
def storeRead (store : List WeatherData) (city : String) : StoreReadOutcome :=
  match findOne store city with
  | some d => .ok d
  | none => .noDocuments

/-- Result of the GET handler: HTTP status, `http.Error` message text,
whether the store was contacted, and the record written on success. -/
structure GetResult where
  status : Nat
  body : String
  storeContacted : Bool
  returned : Option WeatherData
  deriving Repr, DecidableEq

/-- `getWeatherHandler` (main.go lines 87-106).  The store read outcome is an
explicit argument so that store-level failures can be modelled; the Go code
maps every non-nil `FindOne ... Decode` error to 404. -/
def getWeatherHandler (city : String) (read : StoreReadOutcome) : GetResult :=
  if city == "" then
    { status := 400, body := "City parameter is required",
      storeContacted := false, returned := none }
  else
    match read with
    | .ok doc =>
        { status := 200, body := "", storeContacted := true, returned := some doc }
    | .noDocuments =>
        { status := 404, body := "Weather data not found",
          storeContacted := true, returned := none }
    | .failure =>
        { status := 404, body := "Weather data not found",
          storeContacted := true, returned := none }

/-- Outcome of `http.Get(searchURL)` (main.go line 125): transport failure,
or a response with a status code and a body that `json.Unmarshal` either
decodes to a `Weatherjson` or rejects. -/
inductive FetchOutcome where
  | transportError
  | response (statusCode : Nat) (parsed : Option Weatherjson)
  deriving Repr, DecidableEq

/-- Environment of one PUT request: the decoded request body (`none` when
`json.NewDecoder ... Decode` fails, otherwise the `city` field, `""` when
absent), the provider call outcome, whether `UpdateOne` fails, and the
current time. -/
structure PutEnv where
  bodyParse : Option String
  fetch : FetchOutcome
  upsertFails : Bool
  now : Nat
  deriving Repr, DecidableEq

/-- Result of the PUT handler: HTTP status, `http.Error` message text, the
store after the request, whether the provider was contacted, whether a store
write happened, and the record stored on success. -/
structure PutResult where
  status : Nat
  body : String
  store : List WeatherData
  providerContacted : Bool
  storeWritten : Bool
  storedRecord : Option WeatherData
  deriving Repr, DecidableEq

/-- `putWeatherHandler` (main.go lines 108-168).  `none` models the Go panic
raised by the unchecked `weatherAPIResponse.Weather[0]` access (main.go
line 147) when the provider's conditions list is empty: the request aborts
with no HTTP response written by the handler and no store write. -/
def putWeatherHandler (env : PutEnv) (store : List WeatherData) : Option PutResult :=
  match env.bodyParse with
  | none =>
      some { status := 400, body := "Invalid request body", store := store,
             providerContacted := false, storeWritten := false, storedRecord := none }
  | some city =>
    if city == "" then
      some { status := 400, body := "City is required", store := store,
             providerContacted := false, storeWritten := false, storedRecord := none }
    else
      match env.fetch with
      | .transportError =>
          some { status := 500, body := "Failed to fetch weather data", store := store,
                 providerContacted := true, storeWritten := false, storedRecord := none }
      | .response code parsed =>
        if code != 200 then
          some { status := 500, body := "Failed to fetch weather data from API",
                 store := store, providerContacted := true, storeWritten := false,
                 storedRecord := none }
        else
          match parsed with
          | none =>
              some { status := 500, body := "Failed to parse weather data", store := store,
                     providerContacted := true, storeWritten := false, storedRecord := none }
          | some wj =>
            match wj.weather with
            | [] => none
            | w0 :: _ =>
              let weatherData : WeatherData :=
                { city := wj.name, description := w0.description,
                  temp := wj.main.temp - 273.15, lastUpdated := env.now }
              if env.upsertFails then
                some { status := 500, body := "Failed to update weather data",
                       store := store, providerContacted := true, storeWritten := false,
                       storedRecord := none }
              else
                some { status := 200, body := "",
                       store := updateOneUpsert store weatherData.city weatherData,
                       providerContacted := true, storeWritten := true,
                       storedRecord := some weatherData }

/-- Character-level model of `fmt.Sprintf("%v?appid=%s&q=%s", ...)`
(main.go line 124): walk the format string, substituting each `%v`/`%s`
verb with the next argument verbatim, with no escaping of any kind. -/
def runFormat : List Char → List String → List Char
  | [], _ => []
  | '%' :: 'v' :: rest, arg :: args => arg.toList ++ runFormat rest args
  | '%' :: 's' :: rest, arg :: args => arg.toList ++ runFormat rest args
  | ch :: rest, args => ch :: runFormat rest args

/-- `searchURL` (main.go line 124): the provider query URL. -/
def searchURL (baseURL apiKey city : String) : String :=
  String.mk (runFormat "%v?appid=%s&q=%s".toList [baseURL, apiKey, city])

/-- N consecutive upserts of the same document, the store transition of N
sequential successful PUT requests resolving to the same canonical name. -/
def upsertN (doc : WeatherData) : Nat → List WeatherData → List WeatherData
  | 0, s => s
  | n + 1, s => upsertN doc n (updateOneUpsert s doc.city doc)

theorem findOne_updateOneUpsert (store : List WeatherData) (doc : WeatherData) :
    findOne (updateOneUpsert store doc.city doc) doc.city = some doc := by
  induction store with
  | nil => simp [findOne, updateOneUpsert]
  | cons r rs ih =>
    cases hb : (r.city == doc.city) with
    | true => simp [updateOneUpsert, findOne, hb, List.find?_cons]
    | false =>
      simp only [findOne] at ih
      simp [updateOneUpsert, findOne, hb, List.find?_cons, ih]

theorem countCity_updateOneUpsert_self (store : List WeatherData) (doc : WeatherData) :
    countCity (updateOneUpsert store doc.city doc) doc.city =
      max (countCity store doc.city) 1 := by
  induction store with
  | nil => simp [countCity, updateOneUpsert]
  | cons r rs ih =>
    cases hb : (r.city == doc.city) with
    | true =>
      simp only [updateOneUpsert, hb, if_true]
      simp only [countCity, List.filter_cons, hb, beq_self_eq_true, if_true,
        List.length_cons]
      omega
    | false =>
      simp only [updateOneUpsert, hb, Bool.false_eq_true, if_false]
      simp only [countCity, List.filter_cons, hb, Bool.false_eq_true, if_false] at ih ⊢
      exact ih

theorem countCity_updateOneUpsert_other (store : List WeatherData) (doc : WeatherData)
    (d : String) (hd : doc.city ≠ d) :
    countCity (updateOneUpsert store doc.city doc) d = countCity store d := by
  have hdb : (doc.city == d) = false := beq_eq_false_iff_ne.mpr hd
  induction store with
  | nil => simp [countCity, updateOneUpsert, hdb]
  | cons r rs ih =>
    cases hb : (r.city == doc.city) with
    | true =>
      have hr : r.city = doc.city := by simpa using hb
      have hrd : (r.city == d) = false := by rw [hr]; exact hdb
      simp only [updateOneUpsert, hb, if_true]
      simp [countCity, List.filter_cons, hdb, hrd]
    | false =>
      simp only [updateOneUpsert, hb, Bool.false_eq_true, if_false]
      simp only [countCity, List.filter_cons] at ih ⊢
      cases hcase : (r.city == d) <;> simp [hcase, ih]

theorem countCity_upsertN (doc : WeatherData) (n : Nat) (store : List WeatherData)
    (h : countCity store doc.city = 1) :
    countCity (upsertN doc n store) doc.city = 1 := by
  induction n generalizing store with
  | zero => simpa [upsertN] using h
  | succ m ih =>
    simp only [upsertN]
    apply ih
    rw [countCity_updateOneUpsert_self, h]
    simp

theorem putWeatherHandler_success (env : PutEnv) (store : List WeatherData) (city : String)
    (wj : Weatherjson) (w0 : WeatherCondition) (ws : List WeatherCondition)
    (hb : env.bodyParse = some city) (hc : city ≠ "")
    (hf : env.fetch = .response 200 (some wj)) (hw : wj.weather = w0 :: ws)
    (hu : env.upsertFails = false) :
    putWeatherHandler env store =
      some { status := 200, body := "",
             store := updateOneUpsert store wj.name
               { city := wj.name, description := w0.description,
                 temp := wj.main.temp - 273.15, lastUpdated := env.now },
             providerContacted := true, storeWritten := true,
             storedRecord := some { city := wj.name, description := w0.description,
                                    temp := wj.main.temp - 273.15, lastUpdated := env.now } } := by
  have hcb : (city == "") = false := beq_eq_false_iff_ne.mpr hc
  simp [putWeatherHandler, hb, hf, hw, hu, hcb]

example : searchURL "http://api" "KEY" "Paris" = "http://api?appid=KEY&q=Paris" := by
  decide

/-- C2: a successful fetch-and-store (body decoded to a non-empty city,
provider 200 response decoding to a payload with a non-empty conditions
list and non-empty canonical name, upsert succeeding) followed immediately
by a retrieve-stored of the provider's canonical name returns a record
whose description is the first condition's description and whose
temperature is the provider Kelvin value minus 273.15. -/
theorem c2_read_after_write (env : PutEnv) (store : List WeatherData) (city : String)
    (wj : Weatherjson) (w0 : WeatherCondition) (ws : List WeatherCondition)
    (res : PutResult)
    (hb : env.bodyParse = some city) (hc : city ≠ "")
    (hf : env.fetch = .response 200 (some wj)) (hw : wj.weather = w0 :: ws)
    (hn : wj.name ≠ "") (hu : env.upsertFails = false)
    (hres : putWeatherHandler env store = some res) :
    ∃ doc, (getWeatherHandler wj.name (storeRead res.store wj.name)).returned = some doc ∧
      doc.description = w0.description ∧ doc.temp = wj.main.temp - 273.15 := by
  rw [putWeatherHandler_success env store city wj w0 ws hb hc hf hw hu] at hres
  obtain rfl := (Option.some.inj hres).symm
  have hfind : findOne (updateOneUpsert store wj.name
      { city := wj.name, description := w0.description,
        temp := wj.main.temp - 273.15, lastUpdated := env.now }) wj.name =
      some { city := wj.name, description := w0.description,
             temp := wj.main.temp - 273.15, lastUpdated := env.now } :=
    findOne_updateOneUpsert store
      { city := wj.name, description := w0.description,
        temp := wj.main.temp - 273.15, lastUpdated := env.now }
  have hnb : (wj.name == "") = false := beq_eq_false_iff_ne.mpr hn
  refine ⟨{ city := wj.name, description := w0.description,
            temp := wj.main.temp - 273.15, lastUpdated := env.now }, ?_, rfl, rfl⟩
  show (getWeatherHandler wj.name
    (storeRead (updateOneUpsert store wj.name
      { city := wj.name, description := w0.description,
        temp := wj.main.temp - 273.15, lastUpdated := env.now }) wj.name)).returned = _
  rw [storeRead, hfind]
  simp [getWeatherHandler, hnb]

theorem c2_read_after_write_witness :
    ∃ doc,
      (getWeatherHandler "Paris"
        (storeRead
          (updateOneUpsert [] "Paris"
            { city := "Paris", description := "clear sky",
              temp := (300 : ℚ) - 273.15, lastUpdated := 7 })
          "Paris")).returned = some doc ∧
      doc.description = "clear sky" ∧ doc.temp = (300 : ℚ) - 273.15 :=
  c2_read_after_write
    { bodyParse := some "paris",
      fetch := .response 200 (some { weather := [{ description := "clear sky" }],
                                     main := { temp := 300 }, name := "Paris" }),
      upsertFails := false, now := 7 }
    [] "paris"
    { weather := [{ description := "clear sky" }], main := { temp := 300 },
      name := "Paris" }
    { description := "clear sky" } []
    { status := 200, body := "",
      store := updateOneUpsert [] "Paris"
        { city := "Paris", description := "clear sky", temp := (300 : ℚ) - 273.15,
          lastUpdated := 7 },
      providerContacted := true, storeWritten := true,
      storedRecord := some { city := "Paris", description := "clear sky",
                             temp := (300 : ℚ) - 273.15, lastUpdated := 7 } }
    rfl (by decide) rfl rfl (by decide) rfl rfl

/-- C3: the record stored by a successful fetch-and-store carries
temperature `provider Kelvin value - 273.15` (main.go line 148); for the
Kelvin value 300 the stored temperature is within 1e-9 of 26.85. -/
theorem c3_kelvin_to_celsius (env : PutEnv) (store : List WeatherData) (city : String)
    (wj : Weatherjson) (w0 : WeatherCondition) (ws : List WeatherCondition)
    (res : PutResult) (rec : WeatherData)
    (hb : env.bodyParse = some city) (hc : city ≠ "")
    (hf : env.fetch = .response 200 (some wj)) (hw : wj.weather = w0 :: ws)
    (hu : env.upsertFails = false)
    (hres : putWeatherHandler env store = some res)
    (hrec : res.storedRecord = some rec) :
    rec.temp = wj.main.temp - 273.15 ∧
      (wj.main.temp = 300 → |rec.temp - 26.85| ≤ 1 / 1000000000) := by
  rw [putWeatherHandler_success env store city wj w0 ws hb hc hf hw hu] at hres
  obtain rfl := (Option.some.inj hres).symm
  have h2 : some ({ city := wj.name, description := w0.description,
                    temp := wj.main.temp - 273.15,
                    lastUpdated := env.now } : WeatherData) =
      some rec := hrec
  obtain rfl := (Option.some.inj h2).symm
  refine ⟨rfl, ?_⟩
  intro h300
  show |wj.main.temp - 273.15 - 26.85| ≤ (1 : ℚ) / 1000000000
  rw [h300]
  have hz : (300 : ℚ) - 273.15 - 26.85 = 0 := by norm_num
  rw [hz, abs_zero]
  norm_num

theorem c3_kelvin_to_celsius_witness :
    ({ city := "Paris", description := "clear sky", temp := (300 : ℚ) - 273.15,
       lastUpdated := 7 } : WeatherData).temp = (300 : ℚ) - 273.15 ∧
      ((300 : ℚ) = 300 →
        |({ city := "Paris", description := "clear sky", temp := (300 : ℚ) - 273.15,
            lastUpdated := 7 } : WeatherData).temp - 26.85| ≤ 1 / 1000000000) :=
  c3_kelvin_to_celsius
    { bodyParse := some "paris",
      fetch := .response 200 (some { weather := [{ description := "clear sky" }],
                                     main := { temp := 300 }, name := "Paris" }),
      upsertFails := false, now := 7 }
    [] "paris"
    { weather := [{ description := "clear sky" }], main := { temp := 300 },
      name := "Paris" }
    { description := "clear sky" } []
    { status := 200, body := "",
      store := updateOneUpsert [] "Paris"
        { city := "Paris", description := "clear sky", temp := (300 : ℚ) - 273.15,
          lastUpdated := 7 },
      providerContacted := true, storeWritten := true,
      storedRecord := some { city := "Paris", description := "clear sky",
                             temp := (300 : ℚ) - 273.15, lastUpdated := 7 } }
    { city := "Paris", description := "clear sky", temp := (300 : ℚ) - 273.15,
      lastUpdated := 7 }
    rfl (by decide) rfl rfl rfl rfl rfl

/-- C4: after N ≥ 1 sequential upserts of the same document (the store
transition of N successful fetch-and-store calls resolving to the same
canonical city name), the store holds exactly one record for that city,
provided it held at most one beforehand; and a single upsert preserves
"at most one record per distinct city value". -/
theorem c4_at_most_one_record_per_city (doc : WeatherData) (store : List WeatherData)
    (N : Nat) (hN : 1 ≤ N) (h0 : countCity store doc.city ≤ 1) :
    countCity (upsertN doc N store) doc.city = 1 ∧
      ∀ (s : List WeatherData) (d : String), countCity s d ≤ 1 →
        countCity (updateOneUpsert s doc.city doc) d ≤ 1 := by
  constructor
  · obtain ⟨m, rfl⟩ : ∃ m, N = m + 1 := ⟨N - 1, by omega⟩
    simp only [upsertN]
    apply countCity_upsertN
    rw [countCity_updateOneUpsert_self]
    omega
  · intro s d hsd
    by_cases hd : doc.city = d
    · subst hd
      rw [countCity_updateOneUpsert_self]
      omega
    · rw [countCity_updateOneUpsert_other s doc d hd]
      exact hsd

theorem c4_at_most_one_record_per_city_witness :
    countCity
      (upsertN { city := "Paris", description := "x", temp := 0, lastUpdated := 0 } 3 [])
      "Paris" = 1 :=
  (c4_at_most_one_record_per_city
    { city := "Paris", description := "x", temp := 0, lastUpdated := 0 }
    [] 3 (by decide) (by decide)).1

/-- C7: the record stored by a successful fetch-and-store takes its `city`
field from the provider response's canonical `name` field (main.go line
146), not from the caller's input spelling, and the upsert filter is that
transformed name (main.go line 156). -/
theorem c7_city_from_canonical_name (env : PutEnv) (store : List WeatherData)
    (city : String) (wj : Weatherjson) (w0 : WeatherCondition) (ws : List WeatherCondition)
    (hb : env.bodyParse = some city) (hc : city ≠ "")
    (hf : env.fetch = .response 200 (some wj)) (hw : wj.weather = w0 :: ws)
    (hu : env.upsertFails = false) :
    ∃ rec : WeatherData, rec.city = wj.name ∧
      putWeatherHandler env store =
        some { status := 200, body := "", store := updateOneUpsert store rec.city rec,
               providerContacted := true, storeWritten := true,
               storedRecord := some rec } := by
  refine ⟨{ city := wj.name, description := w0.description,
            temp := wj.main.temp - 273.15, lastUpdated := env.now }, rfl, ?_⟩
  exact putWeatherHandler_success env store city wj w0 ws hb hc hf hw hu

theorem c7_city_from_canonical_name_witness :
    ∃ rec : WeatherData, rec.city = "Paris" ∧
      putWeatherHandler
        { bodyParse := some "paris",
          fetch := .response 200 (some { weather := [{ description := "clear sky" }],
                                         main := { temp := 300 }, name := "Paris" }),
          upsertFails := false, now := 7 } [] =
        some { status := 200, body := "", store := updateOneUpsert [] rec.city rec,
               providerContacted := true, storeWritten := true,
               storedRecord := some rec } :=
  c7_city_from_canonical_name
    { bodyParse := some "paris",
      fetch := .response 200 (some { weather := [{ description := "clear sky" }],
                                     main := { temp := 300 }, name := "Paris" }),
      upsertFails := false, now := 7 }
    [] "paris"
    { weather := [{ description := "clear sky" }], main := { temp := 300 },
      name := "Paris" }
    { description := "clear sky" } []
    rfl (by decide) rfl rfl rfl

/-- C8: with a decodable body and non-empty city, a transport failure on the
provider call yields HTTP 500 "Failed to fetch weather data"
(`UpstreamUnavailable`), and a provider response with a non-success status
yields HTTP 500 "Failed to fetch weather data from API" (`UpstreamError`);
in both cases the store is untouched and no write occurs. -/
theorem c8_upstream_failures (env : PutEnv) (store : List WeatherData) (city : String)
    (code : Nat) (parsed : Option Weatherjson)
    (hb : env.bodyParse = some city) (hc : city ≠ "") :
    (env.fetch = .transportError →
      putWeatherHandler env store =
        some { status := 500, body := "Failed to fetch weather data", store := store,
               providerContacted := true, storeWritten := false, storedRecord := none }) ∧
    (env.fetch = .response code parsed → ¬ (200 ≤ code ∧ code ≤ 299) →
      putWeatherHandler env store =
        some { status := 500, body := "Failed to fetch weather data from API",
               store := store, providerContacted := true, storeWritten := false,
               storedRecord := none }) := by
  have hcb : (city == "") = false := beq_eq_false_iff_ne.mpr hc
  constructor
  · intro hf
    simp [putWeatherHandler, hb, hf, hcb]
  · intro hf hcode
    have h200 : code ≠ 200 := by omega
    have hbne : (code != 200) = true := by simpa using h200
    simp [putWeatherHandler, hb, hf, hcb, hbne]

theorem c8_upstream_failures_witness :
    putWeatherHandler
      { bodyParse := some "Paris", fetch := .transportError,
        upsertFails := false, now := 0 } [] =
      some { status := 500, body := "Failed to fetch weather data", store := [],
             providerContacted := true, storeWritten := false, storedRecord := none } :=
  (c8_upstream_failures
    { bodyParse := some "Paris", fetch := .transportError,
      upsertFails := false, now := 0 }
    [] "Paris" 503 none rfl (by decide)).1 rfl

/-- C1: the claim asserts that an empty provider conditions list makes
fetch-and-store fail with `UpstreamParseError` and never crash.  The code
instead performs the unchecked `Weather[0]` access of main.go line 147,
which panics (out-of-bounds) on the empty list: evaluated at a concrete
well-formed request with provider payload
`{"weather":[],"main":{"temp":300.0},"name":"Paris"}`, the handler aborts
(`none`) instead of producing the parse-error response. -/
theorem c1_empty_conditions_list_panics :
    putWeatherHandler
      { bodyParse := some "Paris",
        fetch := .response 200
          (some { weather := [], main := { temp := 300 }, name := "Paris" }),
        upsertFails := false, now := 0 } [] = none := rfl

/-- C5 counterexample: when the Document Store read itself fails (as opposed
to finding no document), the GET handler still answers 404 "Weather data not
found", not the claimed HTTP 500 `StorageError` — main.go lines 98-102 map
every `FindOne ... Decode` error to 404. -/
theorem c5_counterexample_read_failure_is_404 :
    (getWeatherHandler "Paris" .failure).status = 404 ∧
      (getWeatherHandler "Paris" .failure).status ≠ 500 := by decide

/-- C5 (amended): on the read path, a failed Document Store read is mapped
to the same `NotFound` 404 response as the absence of a matching record;
both produce status 404 with body "Weather data not found". -/
theorem c5_all_read_errors_map_to_404 (city : String) (read : StoreReadOutcome)
    (hc : city ≠ "") (hr : read = .failure ∨ read = .noDocuments) :
    getWeatherHandler city read =
      { status := 404, body := "Weather data not found", storeContacted := true,
        returned := none } := by
  have hcb : (city == "") = false := beq_eq_false_iff_ne.mpr hc
  rcases hr with h | h <;> subst h <;> simp [getWeatherHandler, hcb]

theorem c5_all_read_errors_map_to_404_witness :
    getWeatherHandler "Paris" .failure =
      { status := 404, body := "Weather data not found", storeContacted := true,
        returned := none } :=
  c5_all_read_errors_map_to_404 "Paris" .failure (by decide) (Or.inl rfl)

/-- C6: an empty/absent city (and, on the write path, an undecodable body)
is rejected with HTTP 400 before the store or the provider is contacted:
the GET result is independent of the store read outcome and flags
`storeContacted = false`, and the PUT result for any fetch/upsert oracle
leaves the store untouched with `providerContacted = false` and
`storeWritten = false`. -/
theorem c6_invalid_input_rejected_before_io (read : StoreReadOutcome) (env : PutEnv)
    (store : List WeatherData) :
    getWeatherHandler "" read =
      { status := 400, body := "City parameter is required", storeContacted := false,
        returned := none } ∧
    putWeatherHandler { bodyParse := none, fetch := env.fetch,
                        upsertFails := env.upsertFails, now := env.now } store =
      some { status := 400, body := "Invalid request body", store := store,
             providerContacted := false, storeWritten := false, storedRecord := none } ∧
    putWeatherHandler { bodyParse := some "", fetch := env.fetch,
                        upsertFails := env.upsertFails, now := env.now } store =
      some { status := 400, body := "City is required", store := store,
             providerContacted := false, storeWritten := false, storedRecord := none } :=
  ⟨rfl, rfl, rfl⟩

/-- C9: whenever the GET handler run against an actual store succeeds in
returning a record, that record's `city` field equals the queried city —
the `FindOne` filter of main.go line 98 is an exact match on `city`. -/
theorem c9_lookup_returns_queried_city (store : List WeatherData) (city : String)
    (doc : WeatherData)
    (h : (getWeatherHandler city (storeRead store city)).returned = some doc) :
    doc.city = city := by
  by_cases hc : city = ""
  · subst hc; simp [getWeatherHandler] at h
  · have hcb : (city == "") = false := beq_eq_false_iff_ne.mpr hc
    cases hfo : findOne store city with
    | none => simp [getWeatherHandler, storeRead, hfo, hcb] at h
    | some d =>
      have hd : (d.city == city) = true :=
        @List.find?_some WeatherData (fun r => r.city == city) d store
          (by simpa [findOne] using hfo)
      simp [getWeatherHandler, storeRead, hfo, hcb] at h
      rw [← h]
      simpa using hd

theorem c9_lookup_returns_queried_city_witness :
    ({ city := "Paris", description := "clear sky", temp := 0,
       lastUpdated := 0 } : WeatherData).city = "Paris" :=
  c9_lookup_returns_queried_city
    [{ city := "Paris", description := "clear sky", temp := 0, lastUpdated := 0 }]
    "Paris" _ rfl

/-- C10: the provider query URL is the literal, unescaped concatenation
`baseURL ++ "?appid=" ++ apiKey ++ "&q=" ++ city` (main.go line 124), so a
city containing `&` injects extra query parameters: splitting the URL built
for city `"Paris&units=metric"` on `&` yields three segments. -/
theorem c10_provider_url_unescaped_concat (baseURL apiKey city : String) :
    searchURL baseURL apiKey city = baseURL ++ "?appid=" ++ apiKey ++ "&q=" ++ city ∧
      (searchURL "http://api.example" "KEY" "Paris&units=metric").toList.splitOn '&' =
        ["http://api.example?appid=KEY".toList, "q=Paris".toList,
         "units=metric".toList] := by
  constructor
  · obtain ⟨bl⟩ := baseURL
    obtain ⟨kl⟩ := apiKey
    obtain ⟨cl⟩ := city
    apply congrArg String.mk
    show runFormat ("%v?appid=%s&q=%s".toList) [⟨bl⟩, ⟨kl⟩, ⟨cl⟩] = _
    simp [runFormat, String.toList]
  · decide

example :
    putWeatherHandler
      { bodyParse := some "paris",
        fetch := .response 200 (some { weather := [{ description := "clear sky" }],
                                       main := { temp := 300 }, name := "Paris" }),
        upsertFails := false, now := 7 } [] =
    some { status := 200, body := "",
           store := [{ city := "Paris", description := "clear sky",
                       temp := 300 - 273.15, lastUpdated := 7 }],
           providerContacted := true, storeWritten := true,
           storedRecord := some { city := "Paris", description := "clear sky",
                                  temp := 300 - 273.15, lastUpdated := 7 } } := by
  rfl
